import Mathlib

/-!
# Verification of the UberProject event-driven core

Shallow embedding of the repository's event bus (`shared/event_bus/rabbit.py`,
`shared/event_bus/types.py`), the driver-service reactor and store
(`services/driver_service/app/main.py`, `store.py`), and the trip-service
reactor and store (`services/trip_service/app/main.py`, `store.py`), together
with proofs settling the spec claims about them.

Conventions of the embedding:
* Python exceptions are modelled with `Except String α`; the string carries
  the exception class / message (`"KeyError"`, `"ValueError"`, `"TypeError"`,
  `"RuntimeError: RabbitBus not connected"`).
* Database tables are modelled as Lean lists of rows in insertion order;
  SQLAlchemy `.filter(...).first()` is `List.find?` and an update of the row
  found by `.first()` is an update of the first matching list element.
* JSON payload values are modelled by `PVal` (string / number / bool / null);
  numbers are represented by `Rat`.
-/

set_option autoImplicit false

namespace UberProject

/-- A JSON payload value as carried in `BaseEvent.payload`
(`payload: Dict[str, Any]` in `shared/event_bus/types.py`).  Numbers are
modelled by `Rat`. -/
inductive PVal where
  | str (s : String)
  | num (q : Rat)
  | bool (b : Bool)
  | null
deriving DecidableEq, Repr

/-- A Python dict used as an event payload: association list of keys to
values, first occurrence of a key wins (keys of a Python dict are unique). -/
abbrev Payload := List (String × PVal)

/-- Model of `payload.get(key)`: first binding of `key`, or `none` (Python `None`)
when absent. -/
def payloadGet : Payload → String → Option PVal
  | [], _ => none
  | (k, v) :: rest, key => if key = k then some v else payloadGet rest key

/-- Python truthiness (`bool(v)`) for payload values, as used by the
reactors' guards `if not trip_id: return`. -/
def PVal.truthy : PVal → Bool
  | .str s => s ≠ ""
  | .num q => q ≠ 0
  | .bool b => b
  | .null => false

/-- The event envelope dataclass `BaseEvent` of `shared/event_bus/types.py`:
fields `name`, `id`, `ts`, `source`, `payload`, all required, no defaults. -/
structure BaseEvent where
  name : String
  id : String
  ts : String
  source : String
  payload : Payload
deriving DecidableEq, Repr

/-- A field value of the JSON wire body produced by
`json.dumps(event.__dict__)` in `RabbitBus.publish`: the four envelope
metadata fields are strings, `payload` is a nested object. -/
inductive JField where
  | jstr (s : String)
  | jobj (p : Payload)
deriving DecidableEq, Repr

/-- The JSON wire body: a JSON object, i.e. an association list of fields.
`json.loads` of a message body yields such an object. -/
abbrev WireBody := List (String × JField)

/-- Model of `json.dumps(event.__dict__)` in `RabbitBus.publish` (rabbit.py line 36):
the dict of a `BaseEvent` has exactly its five fields, in declaration
order. -/
def encodeEvent (e : BaseEvent) : WireBody :=
  [("name", .jstr e.name), ("id", .jstr e.id), ("ts", .jstr e.ts),
   ("source", .jstr e.source), ("payload", .jobj e.payload)]

/-- The five keyword parameters accepted by the `BaseEvent` constructor. -/
def eventFieldNames : List String := ["name", "id", "ts", "source", "payload"]

/-- Field lookup in a decoded JSON object (Python dict access; keys of a
dict produced by `json.loads` are unique, so first match is the match). -/
def lookupField : WireBody → String → Option JField
  | [], _ => none
  | (k, v) :: rest, key => if key = k then some v else lookupField rest key

/-- Model of `BaseEvent(**json.loads(body))` in `RabbitBus.subscribe._on_message`
(rabbit.py lines 49-50): construct the envelope from the decoded object by
keyword.  Construction fails (Python `TypeError`) when a required field is
absent or an unexpected key is present; a field of the wrong JSON shape
cannot fill the typed slot of the embedding and is also rejected. -/
def decodeEvent (body : WireBody) : Option BaseEvent :=
  if body.all (fun kv => eventFieldNames.contains kv.1) then
    match lookupField body "name", lookupField body "id", lookupField body "ts",
          lookupField body "source", lookupField body "payload" with
    | some (.jstr n), some (.jstr i), some (.jstr t), some (.jstr s), some (.jobj p) =>
        some ⟨n, i, t, s, p⟩
    | _, _, _, _, _ => none
  else none

/-! ## Python float() conversion (used by `on_pricing_quoted`) -/

/-- Value of a decimal digit list, most significant first. -/
def natOfDigits (cs : List Char) : Nat :=
  cs.foldl (fun n c => n * 10 + (c.toNat - 48)) 0

/-- Strip leading and trailing whitespace from a character list (the
whitespace stripping `float(str)` performs before parsing). -/
def stripWs (cs : List Char) : List Char :=
  ((cs.dropWhile Char.isWhitespace).reverse.dropWhile Char.isWhitespace).reverse

/-- Python `float(s)` on a string: strips surrounding whitespace, then
accepts an optional sign followed by a decimal literal `digits`,
`digits.digits`, `digits.` or `.digits`.  (Exotic accepted forms —
exponents, `inf`, `nan`, underscores — are outside the model; no claim
exercises them.)  `none` models `ValueError`. -/
def pyStrToFloat (s : String) : Option Rat :=
  let cs := stripWs s.toList
  let signed : Int × List Char :=
    match cs with
    | '+' :: r => (1, r)
    | '-' :: r => (-1, r)
    | r => (1, r)
  let intPart := signed.2.takeWhile Char.isDigit
  let rest := signed.2.dropWhile Char.isDigit
  match rest with
  | [] =>
      if intPart.isEmpty then none
      else some (signed.1 * (natOfDigits intPart : Rat))
  | '.' :: frac =>
      if frac.all Char.isDigit && (!intPart.isEmpty || !frac.isEmpty) then
        some (signed.1 *
          ((natOfDigits intPart : Rat) + (natOfDigits frac : Rat) / (10 ^ frac.length)))
      else none
  | _ => none

/-- Python `float(v)` on a payload value: numbers pass through, booleans
become 0/1, strings are parsed (`ValueError` on failure), `None` raises
`TypeError`. -/
def pyFloat : PVal → Except String Rat
  | .num q => .ok q
  | .bool b => .ok (if b then 1 else 0)
  | .str s =>
      match pyStrToFloat s with
      | some q => .ok q
      | none => .error "ValueError"
  | .null => .error "TypeError"

/-! ## Driver store (`services/driver_service/app/store.py`)

A `Driver` row of the `drivers` table (`database.py`): `id` is the primary
key, `name` non-null, `available` defaults to false.  The table is a list of
rows in insertion order; the primary key makes the ids pairwise distinct,
which theorems take as the hypothesis `(store.map Driver.id).Nodup`. -/

/-- One row of the `drivers` table. -/
structure Driver where
  id : String
  name : String
  available : Bool := false
deriving DecidableEq, Repr

/-- Model of `DriverStore.pick_available` (store.py lines 36-38):
`db.query(Driver).filter(Driver.available == True).first()` — the first row
whose `available` flag is set, or `None`. -/
def pick_available (store : List Driver) : Option Driver :=
  store.find? Driver.available

/-- Model of `DriverStore.set_available` (store.py lines 40-46): look up the first
row with the given id, raise `KeyError` (`none`) when absent, otherwise set
its `available` flag and commit.  Returns the updated table. -/
def set_available : List Driver → String → Bool → Option (List Driver)
  | [], _, _ => none
  | d :: ds, did, b =>
      if d.id = did then some ({ d with available := b } :: ds)
      else (set_available ds did b).map (d :: ·)

/-! ## Driver-service reactor (`services/driver_service/app/main.py`) -/

/-- The `driver.assigned` event built in `on_trip_requested` (main.py lines
32-38): `id` from `generate(size=12)`, `ts` from `now_iso()`, `source` from
`SERVICE_NAME` — all three are inputs of the model — and payload exactly
`{"trip_id": trip_id, "driver_id": driver.id}`. -/
def mkAssignedEvent (genId genTs src : String) (tripId : PVal) (driverId : String) :
    BaseEvent :=
  ⟨"driver.assigned", genId, genTs, src,
   [("trip_id", tripId), ("driver_id", .str driverId)]⟩

/-- Model of `on_trip_requested` (driver service main.py lines 19-39).  Result: the
driver table after the handling and the event published through the bus (if
any); `Except` carries an uncaught exception.  Mirrors the code line by
line: name guard, `payload.get("trip_id")` with truthiness guard,
`pick_available`, silent return when no driver, `set_available(id, False)`
(an uncaught `KeyError` would propagate), then publish. -/
def on_trip_requested (genId genTs src : String) (store : List Driver)
    (event : BaseEvent) : Except String (List Driver × Option BaseEvent) :=
  if event.name ≠ "trip.requested" then .ok (store, none)
  else
    match payloadGet event.payload "trip_id" with
    | none => .ok (store, none)
    | some tripId =>
      if ¬tripId.truthy then .ok (store, none)
      else
        match pick_available store with
        | none => .ok (store, none)
        | some driver =>
          match set_available store driver.id false with
          | none => .error "KeyError"
          | some store2 =>
              .ok (store2, some (mkAssignedEvent genId genTs src tripId driver.id))

/-! ## Trip store (`services/trip_service/app/store.py`)

One row of the `trips` table (`database.py`): `id` is the primary key;
`status` defaults to `"REQUESTED"`; `assigned_driver_id` is nullable.  The
reactor stores the raw payload value of `driver_id` into
`assigned_driver_id` without conversion, so that field holds a `PVal`, and
`estimated_price_dkk` / `final_price_dkk` hold the floats produced by
`float(...)` / the completion call. -/

/-- One row of the `trips` table. -/
structure Trip where
  id : String
  rider_id : String
  pickup : Payload
  dropoff : Payload
  status : String := "REQUESTED"
  assigned_driver_id : Option PVal := none
  estimated_price_dkk : Option Rat := none
  final_price_dkk : Option Rat := none
deriving DecidableEq, Repr

/-- The SQL predicate `Trip.id == trip_id` where `trip_id` is a raw payload
value: true exactly when the value is the string equal to the row's id (a
non-string value never equals a string primary key). -/
def tripIdMatches (t : Trip) (v : PVal) : Bool :=
  v = .str t.id

/-- Model of `TripStore.assign_driver` (trip store.py lines 81-88): look up the first
row with the given id, raise `KeyError` (`none`) when absent, otherwise set
`status = "ASSIGNED"` and `assigned_driver_id = driver_id` and commit.
There is no guard on the current status. -/
def assign_driver : List Trip → PVal → PVal → Option (List Trip)
  | [], _, _ => none
  | t :: ts, tid, did =>
      if tripIdMatches t tid then
        some ({ t with status := "ASSIGNED", assigned_driver_id := some did } :: ts)
      else (assign_driver ts tid did).map (t :: ·)

/-- Model of `TripStore.set_estimate` (trip store.py lines 90-96): look up the first
row with the given id, raise `KeyError` (`none`) when absent, otherwise set
`estimated_price_dkk` and commit. -/
def set_estimate : List Trip → PVal → Rat → Option (List Trip)
  | [], _, _ => none
  | t :: ts, tid, est =>
      if tripIdMatches t tid then
        some ({ t with estimated_price_dkk := some est } :: ts)
      else (set_estimate ts tid est).map (t :: ·)

/-! ## Trip-service reactors (`services/trip_service/app/main.py`) -/

/-- Model of `on_driver_assigned` (trip service main.py lines 19-29): name guard,
`payload.get` of `trip_id` and `driver_id` with truthiness guards, then
`assign_driver` with `KeyError` caught and swallowed.  Result: the trip
table after the handling. -/
def on_driver_assigned (store : List Trip) (event : BaseEvent) :
    Except String (List Trip) :=
  if event.name ≠ "driver.assigned" then .ok store
  else
    match payloadGet event.payload "trip_id", payloadGet event.payload "driver_id" with
    | some tripId, some driverId =>
        if ¬tripId.truthy ∨ ¬driverId.truthy then .ok store
        else
          match assign_driver store tripId driverId with
          | some store2 => .ok store2
          | none => .ok store
    | _, _ => .ok store

/-- Model of `on_pricing_quoted` (trip service main.py lines 31-41): name guard,
`payload.get` of `trip_id` (truthiness guard) and of `estimated_price_dkk`
(`is None` guard — falsy values such as `""` or `0` pass), then
`set_estimate(trip_id, float(est))`.  Only `KeyError` is caught, so a
conversion error of `float(est)` propagates out of the handler. -/
def on_pricing_quoted (store : List Trip) (event : BaseEvent) :
    Except String (List Trip) :=
  if event.name ≠ "pricing.quoted" then .ok store
  else
    match payloadGet event.payload "trip_id", payloadGet event.payload "estimated_price_dkk" with
    | some tripId, some est =>
        if ¬tripId.truthy ∨ est = .null then .ok store
        else
          match pyFloat est with
          | .error e => .error e
          | .ok q =>
              match set_estimate store tripId q with
              | some store2 => .ok store2
              | none => .ok store
    | _, _ => .ok store

/-! ## Broker client (`shared/event_bus/rabbit.py`)

State of a `RabbitBus` instance.  The three optional aio_pika handles
`_conn`, `_channel`, `_exchange` are modelled by the three booleans (`true`
iff the handle is set; the handles themselves are opaque to the claims).
`sent` records every message published through the exchange as
(routing key, wire body); `queues` records every durable queue declared by
`subscribe` as (queue name, bound routing key). -/
structure BusState where
  url : String
  exchangeName : String
  connOpen : Bool
  channelOpen : Bool
  exchangeDeclared : Bool
  sent : List (String × WireBody)
  queues : List (String × String)
deriving DecidableEq, Repr

/-- Model of `RabbitBus.__init__(url)` (rabbit.py lines 13-18) with the
default `exchange_name="events"` every service uses: all three handles start
unset, nothing sent, no queue declared. -/
def rabbitBusInit (url : String) : BusState :=
  ⟨url, "events", false, false, false, [], []⟩

/-- Model of `RabbitBus.connect` (rabbit.py lines 20-25).  The outcome of the
`n`-th call to `aio_pika.connect_robust(url)` is given by `transport n`
(`.error msg` models the raised connection exception).  The body makes a
single `await aio_pika.connect_robust(self.url)` call — there is no retry
loop — so exactly one transport attempt is made: on failure the exception
propagates, on success the channel is opened and the durable topic exchange
declared.  Returns (number of transport attempts made, result). -/
def busConnect (transport : Nat → Except String Unit) (s : BusState) :
    Nat × Except String BusState :=
  match transport 0 with
  | .error msg => (1, .error msg)
  | .ok _ =>
      (1, .ok { s with connOpen := true, channelOpen := true, exchangeDeclared := true })

/-- Model of `RabbitBus.publish` (rabbit.py lines 33-38): raise
`RuntimeError("RabbitBus not connected")` when `_exchange` is unset;
otherwise send the JSON-encoded envelope with the event name as routing
key. -/
def busPublish (s : BusState) (e : BaseEvent) : Except String BusState :=
  if !s.exchangeDeclared then .error "RuntimeError: RabbitBus not connected"
  else .ok { s with sent := s.sent ++ [(e.name, encodeEvent e)] }

/-- Model of `RabbitBus.subscribe` (rabbit.py lines 40-53): raise
`RuntimeError("RabbitBus not connected")` when `_channel` or `_exchange` is
unset; otherwise declare the durable queue, bind it to the exchange under
the event name, and register the handler as consumer.  The handler is only
registered, not run, so it does not affect the bus state. -/
def busSubscribe (s : BusState) (eventName queueName : String)
    (_handler : BaseEvent → Except String Unit) : Except String BusState :=
  if !s.channelOpen || !s.exchangeDeclared then
    .error "RuntimeError: RabbitBus not connected"
  else .ok { s with queues := s.queues ++ [(queueName, eventName)] }

/-! ## Interleaved handlings of `trip.requested` (storage-level concurrency)

`on_trip_requested` touches the storage layer twice, through two separate
database sessions: first `store.pick_available()` (a pure read), then
`store.set_available(driver.id, False)` followed by the publish.  Nothing in
`DriverStore` takes a lock or re-checks availability on write, so two
concurrent handlings interleave at the granularity of these storage calls.
`HandlerRun` is one in-flight handling that has already passed the name and
`trip_id` guards (those are pure and touch no shared state); `racePc` is its
program counter: 0 = about to call `pick_available`, 1 = holds a picked
driver and is about to call `set_available` and publish, 2 = finished. -/
structure HandlerRun where
  tripId : PVal
  genId : String
  genTs : String
  pickedDriver : Option Driver := none
  racePc : Nat := 0
deriving DecidableEq, Repr

/-- Shared state of the driver service: the drivers table and the events
published on the bus so far. -/
structure SharedState where
  store : List Driver
  published : List BaseEvent
deriving DecidableEq, Repr

/-- Execute the next storage-level step of one in-flight handling of
`trip.requested`, exactly as `on_trip_requested` performs it: step 0 runs
`pick_available` (no driver → the handling returns, publishing nothing);
step 1 runs `set_available(driver.id, False)` (a `KeyError` aborts the
handling) and then publishes the `driver.assigned` event. -/
def raceStep (src : String) (s : SharedState) (h : HandlerRun) :
    SharedState × HandlerRun :=
  match h.racePc with
  | 0 =>
      match pick_available s.store with
      | none => (s, { h with racePc := 2 })
      | some d => (s, { h with pickedDriver := some d, racePc := 1 })
  | 1 =>
      match h.pickedDriver with
      | none => (s, { h with racePc := 2 })
      | some d =>
          match set_available s.store d.id false with
          | none => (s, { h with racePc := 2 })
          | some store2 =>
              ({ store := store2,
                 published := s.published ++
                   [mkAssignedEvent h.genId h.genTs src h.tripId d.id] },
               { h with racePc := 2 })
  | _ => (s, h)

/-- Run two concurrent handlings `a` and `b` of `trip.requested` under a
schedule: `true` lets `a` take its next storage-level step, `false` lets `b`
take its. -/
def runSchedule (src : String) :
    List Bool → SharedState → HandlerRun → HandlerRun →
    SharedState × HandlerRun × HandlerRun
  | [], s, a, b => (s, a, b)
  | true :: rest, s, a, b =>
      let p := raceStep src s a
      runSchedule src rest p.1 p.2 b
  | false :: rest, s, a, b =>
      let p := raceStep src s b
      runSchedule src rest p.1 a p.2

/-! ## Helper lemmas -/

/-- Dict lookup is invariant under reordering of the fields when the keys
are pairwise distinct. -/
theorem lookupField_eq_of_perm {l1 l2 : WireBody} (h : l1.Perm l2)
    (nd : (l1.map Prod.fst).Nodup) (k : String) :
    lookupField l1 k = lookupField l2 k := by
  induction h with
  | nil => rfl
  | cons x h ih =>
      obtain ⟨kx, vx⟩ := x
      simp only [List.map_cons, List.nodup_cons] at nd
      by_cases hk : k = kx
      · simp [lookupField, hk]
      · simp [lookupField, hk, ih nd.2]
  | swap x y l =>
      obtain ⟨kx, vx⟩ := x
      obtain ⟨ky, vy⟩ := y
      simp only [List.map_cons, List.nodup_cons, List.mem_cons] at nd
      have hkk : ky ≠ kx := fun hh => nd.1 (Or.inl hh)
      by_cases h1 : k = ky <;> by_cases h2 : k = kx
      · exact absurd (h1 ▸ h2) hkk
      · simp [lookupField, h1, h2, hkk]
      · subst h2
        simp [lookupField, h1]
      · simp [lookupField, h1, h2]
  | trans h1 _ ih1 ih2 =>
      rw [ih1 nd, ih2 ((h1.map Prod.fst).nodup_iff.mp nd)]

/-- The boolean `List.all` is invariant under permutation. -/
theorem all_eq_of_perm {α : Type} {p : α → Bool} {l1 l2 : List α}
    (h : l1.Perm l2) : l1.all p = l2.all p := by
  induction h with
  | nil => rfl
  | cons x _ ih => simp [List.all_cons, ih]
  | swap x y l =>
      simp only [List.all_cons]
      rw [← Bool.and_assoc, Bool.and_comm (p y) (p x), Bool.and_assoc]
  | trans _ _ ih1 ih2 => rw [ih1, ih2]

/-- Decoding the canonical encoding in the emitted field order reproduces
the envelope. -/
theorem decodeEvent_encodeEvent (e : BaseEvent) :
    decodeEvent (encodeEvent e) = some e := rfl

/-- When the table's primary keys are distinct and a row with the given id
exists, `set_available` succeeds and updates exactly the rows carrying that
id (of which there is one). -/
theorem set_available_eq_map {l : List Driver} {did : String} {b : Bool}
    (nd : (l.map Driver.id).Nodup) (hm : ∃ x ∈ l, x.id = did) :
    set_available l did b =
      some (l.map fun x => if x.id = did then { x with available := b } else x) := by
  induction l with
  | nil => simp at hm
  | cons d ds ih =>
      simp only [List.map_cons, List.nodup_cons] at nd
      by_cases hd : d.id = did
      · have hds : ∀ x ∈ ds, ¬x.id = did := by
          intro x hx hxe
          exact nd.1 (hd ▸ hxe ▸ List.mem_map_of_mem Driver.id hx)
        have : ds.map (fun x => if x.id = did then { x with available := b } else x) = ds := by
          rw [List.map_congr_left (g := id) (fun x hx => by simp [hds x hx]), List.map_id]
        simp [set_available, hd, this]
      · obtain ⟨x, hx, hxe⟩ := hm
        rcases List.mem_cons.mp hx with hxd | hxds
        · exact absurd (hxd ▸ hxe) hd
        · simp [set_available, hd, ih nd.2 ⟨x, hxds, hxe⟩]

/-- A driver returned by `pick_available` is a row of the table and its
`available` flag is set. -/
theorem pick_available_spec {l : List Driver} {d : Driver}
    (h : pick_available l = some d) : d ∈ l ∧ d.available = true :=
  ⟨List.mem_of_find?_eq_some h, List.find?_some h⟩

/-- If the first row matching a trip id is `t`, `assign_driver` succeeds and
the first matching row of the result is `t` with `status = "ASSIGNED"` and
`assigned_driver_id` overwritten — whatever `t.status` was before. -/
theorem assign_driver_find_spec {l : List Trip} {tid : PVal} (did : PVal) {t : Trip}
    (hfind : l.find? (fun x => tripIdMatches x tid) = some t) :
    ∃ l2, assign_driver l tid did = some l2 ∧
      l2.find? (fun x => tripIdMatches x tid) =
        some { t with status := "ASSIGNED", assigned_driver_id := some did } := by
  induction l with
  | nil => simp at hfind
  | cons x xs ih =>
      by_cases hx : tripIdMatches x tid
      · rw [List.find?_cons_of_pos (p := fun y => tripIdMatches y tid) xs hx] at hfind
        injection hfind with hfind
        subst hfind
        refine ⟨{ x with status := "ASSIGNED", assigned_driver_id := some did } :: xs,
          by simp [assign_driver, hx], ?_⟩
        rw [List.find?_cons_of_pos (p := fun y => tripIdMatches y tid) xs
          (by simpa [tripIdMatches] using hx)]
      · rw [List.find?_cons_of_neg (p := fun y => tripIdMatches y tid) xs hx] at hfind
        obtain ⟨l2, hl2, hl2find⟩ := ih hfind
        refine ⟨x :: l2, by simp [assign_driver, hx, hl2], ?_⟩
        rw [List.find?_cons_of_neg (p := fun y => tripIdMatches y tid) l2 hx]
        exact hl2find

/-- Reapplying `assign_driver` with the same arguments to its own output
changes nothing: the targeted row already carries the written values. -/
theorem assign_driver_idem {l l2 : List Trip} {tid did : PVal}
    (h : assign_driver l tid did = some l2) :
    assign_driver l2 tid did = some l2 := by
  induction l generalizing l2 with
  | nil => simp [assign_driver] at h
  | cons t ts ih =>
      by_cases ht : tripIdMatches t tid
      · simp only [assign_driver, if_pos ht] at h
        injection h with h
        subst h
        have ht2 : tripIdMatches
            { t with status := "ASSIGNED", assigned_driver_id := some did } tid := by
          simpa [tripIdMatches] using ht
        simp [assign_driver, ht2]
      · simp only [assign_driver, if_neg ht, Option.map_eq_some'] at h
        obtain ⟨ts2, hts2, rfl⟩ := h
        simp [assign_driver, ht, ih hts2]

/-- If no row matches the trip id, `assign_driver` raises `KeyError`. -/
theorem assign_driver_none {l : List Trip} {tid did : PVal}
    (h : ∀ t ∈ l, tripIdMatches t tid = false) :
    assign_driver l tid did = none := by
  induction l with
  | nil => rfl
  | cons t ts ih =>
      have hh := h t (List.mem_cons_self t ts)
      simp [assign_driver, hh, ih (fun x hx => h x (List.mem_cons_of_mem t hx))]

/-- If no row matches the trip id, `set_estimate` raises `KeyError`. -/
theorem set_estimate_none {l : List Trip} {tid : PVal} {q : Rat}
    (h : ∀ t ∈ l, tripIdMatches t tid = false) :
    set_estimate l tid q = none := by
  induction l with
  | nil => rfl
  | cons t ts ih =>
      have hh := h t (List.mem_cons_self t ts)
      simp [set_estimate, hh, ih (fun x hx => h x (List.mem_cons_of_mem t hx))]

/-! ## Claim theorems -/

/-- C1: for every `trip.requested` event whose payload carries a (truthy)
`trip_id`, `on_trip_requested` selects the first available driver, marks
exactly that driver unavailable, and publishes a `driver.assigned` event
whose payload is exactly `{trip_id, driver_id}`; when no driver is
available it publishes nothing and raises nothing.  The hypothesis
`(store.map Driver.id).Nodup` is the `drivers` table's primary-key
invariant. -/
theorem trip_requested_assigns_first_available
    (genId genTs src : String) (store : List Driver) (e : BaseEvent) (v : PVal)
    (hname : e.name = "trip.requested")
    (hget : payloadGet e.payload "trip_id" = some v)
    (htruthy : v.truthy = true)
    (hnd : (store.map Driver.id).Nodup) :
    (∀ d, pick_available store = some d →
        on_trip_requested genId genTs src store e =
          .ok (store.map fun x => if x.id = d.id then { x with available := false } else x,
               some (mkAssignedEvent genId genTs src v d.id)))
    ∧ (pick_available store = none →
        on_trip_requested genId genTs src store e = .ok (store, none)) := by
  constructor
  · intro d hd
    have hmem := (pick_available_spec hd).1
    have hset := set_available_eq_map (b := false) hnd ⟨d, hmem, rfl⟩
    simp [on_trip_requested, hname, hget, htruthy, hd, hset]
  · intro hd
    simp [on_trip_requested, hname, hget, htruthy, hd]

/-- Witness for C1, both branches: a store where the first available driver
is `d1` (so `d0`, listed earlier but unavailable, is skipped), and the empty
store. -/
theorem trip_requested_assigns_first_available_witness :
    (on_trip_requested "e77" "2025-01-01T00:00:00Z" "driver_service"
        [⟨"d0", "Ana", false⟩, ⟨"d1", "Ben", true⟩, ⟨"d2", "Coe", true⟩]
        ⟨"trip.requested", "evt", "ts0", "trip_service", [("trip_id", PVal.str "t1")]⟩ =
      .ok ([⟨"d0", "Ana", false⟩, ⟨"d1", "Ben", false⟩, ⟨"d2", "Coe", true⟩],
           some (mkAssignedEvent "e77" "2025-01-01T00:00:00Z" "driver_service"
             (PVal.str "t1") "d1")))
    ∧ (on_trip_requested "e78" "2025-01-01T00:00:01Z" "driver_service" []
        ⟨"trip.requested", "evt2", "ts1", "trip_service", [("trip_id", PVal.str "t2")]⟩ =
      .ok ([], none)) := by
  constructor
  · have h := (trip_requested_assigns_first_available "e77" "2025-01-01T00:00:00Z"
      "driver_service"
      [⟨"d0", "Ana", false⟩, ⟨"d1", "Ben", true⟩, ⟨"d2", "Coe", true⟩]
      ⟨"trip.requested", "evt", "ts0", "trip_service", [("trip_id", PVal.str "t1")]⟩
      (PVal.str "t1") rfl rfl rfl (by decide)).1 ⟨"d1", "Ben", true⟩ rfl
    exact h.trans (by rfl)
  · exact (trip_requested_assigns_first_available "e78" "2025-01-01T00:00:01Z"
      "driver_service" []
      ⟨"trip.requested", "evt2", "ts1", "trip_service", [("trip_id", PVal.str "t2")]⟩
      (PVal.str "t2") rfl rfl rfl (by decide)).2 rfl

/-- C3: serializing an envelope with all five fields to the JSON wire body
and decoding that body — in any field order — yields an envelope equal to
the original in every field. -/
theorem event_roundtrip_any_field_order (e : BaseEvent) (body : WireBody)
    (hperm : body.Perm (encodeEvent e)) :
    decodeEvent body = some e := by
  have hnd : ((encodeEvent e).map Prod.fst).Nodup := by
    show (["name", "id", "ts", "source", "payload"] : List String).Nodup
    decide
  have hndbody : (body.map Prod.fst).Nodup := ((hperm.map Prod.fst).nodup_iff).mpr hnd
  have hall := all_eq_of_perm (p := fun kv => eventFieldNames.contains kv.1) hperm
  have hlook := fun k => lookupField_eq_of_perm hperm hndbody k
  have hbody : decodeEvent body = decodeEvent (encodeEvent e) := by
    simp only [decodeEvent]
    rw [hall, hlook "name", hlook "id", hlook "ts", hlook "source", hlook "payload"]
  rw [hbody, decodeEvent_encodeEvent]

/-- Witness for C3: decoding a body whose five fields are listed in an order
different from the emitted one reproduces the original envelope. -/
theorem event_roundtrip_any_field_order_witness :
    decodeEvent
      [("payload", .jobj [("trip_id", PVal.str "t1")]), ("ts", .jstr "ts0"),
       ("id", .jstr "i0"), ("source", .jstr "svc"), ("name", .jstr "trip.requested")] =
    some ⟨"trip.requested", "i0", "ts0", "svc", [("trip_id", PVal.str "t1")]⟩ :=
  event_roundtrip_any_field_order
    ⟨"trip.requested", "i0", "ts0", "svc", [("trip_id", PVal.str "t1")]⟩ _ (by decide)

/-- C4: delivering the same `driver.assigned` event to `on_driver_assigned`
twice leaves the trip table exactly as one delivery left it, and the trip
the event targets ends with `status = "ASSIGNED"` and the event's driver
id. -/
theorem driver_assigned_idempotent (store : List Trip) (e : BaseEvent)
    (tid did : PVal) (s1 : List Trip)
    (hname : e.name = "driver.assigned")
    (h1 : payloadGet e.payload "trip_id" = some tid) (ht1 : tid.truthy = true)
    (h2 : payloadGet e.payload "driver_id" = some did) (ht2 : did.truthy = true)
    (hrun : on_driver_assigned store e = .ok s1) :
    on_driver_assigned s1 e = .ok s1 ∧
      ∀ t, store.find? (fun x => tripIdMatches x tid) = some t →
        s1.find? (fun x => tripIdMatches x tid) =
          some { t with status := "ASSIGNED", assigned_driver_id := some did } := by
  simp only [on_driver_assigned, hname, h1, h2, ht1, ht2, ne_eq, not_true_eq_false,
    if_false, not_false_eq_true, Bool.true_eq_false, or_self, if_true] at hrun ⊢
  cases hassign : assign_driver store tid did with
  | some l2 =>
      rw [hassign] at hrun
      simp only [if_true] at hrun
      have hs1 : l2 = s1 := by
        cases hrun
        rfl
      subst hs1
      constructor
      · rw [assign_driver_idem hassign]
      · intro t hfind
        obtain ⟨l2x, hl2x, hl2find⟩ := assign_driver_find_spec did hfind
        rw [hassign] at hl2x
        cases hl2x
        exact hl2find
  | none =>
      rw [hassign] at hrun
      have hs1 : store = s1 := by
        cases hrun
        rfl
      subst hs1
      constructor
      · rw [hassign]
      · intro t hfind
        obtain ⟨l2x, hl2x, _⟩ := assign_driver_find_spec did hfind
        rw [hassign] at hl2x
        cases hl2x

/-- Witness for C4: delivering `driver.assigned (t1, d9)` once yields the
assigned table; the theorem then gives the second delivery and the final
row state. -/
theorem driver_assigned_idempotent_witness :
    on_driver_assigned
        [{ id := "t1", rider_id := "r1", pickup := [], dropoff := [],
           status := "ASSIGNED", assigned_driver_id := some (PVal.str "d9") }]
        ⟨"driver.assigned", "ev1", "ts0", "driver_service",
         [("trip_id", PVal.str "t1"), ("driver_id", PVal.str "d9")]⟩ =
      .ok [{ id := "t1", rider_id := "r1", pickup := [], dropoff := [],
             status := "ASSIGNED", assigned_driver_id := some (PVal.str "d9") }] :=
  (driver_assigned_idempotent
    [{ id := "t1", rider_id := "r1", pickup := [], dropoff := [] }]
    ⟨"driver.assigned", "ev1", "ts0", "driver_service",
     [("trip_id", PVal.str "t1"), ("driver_id", PVal.str "d9")]⟩
    (PVal.str "t1") (PVal.str "d9")
    [{ id := "t1", rider_id := "r1", pickup := [], dropoff := [],
       status := "ASSIGNED", assigned_driver_id := some (PVal.str "d9") }]
    rfl rfl rfl rfl rfl rfl).1

/-- C9: for every existing trip — whatever its current status, including
`"COMPLETED"` — processing a `driver.assigned` event with that trip's id
sets the status to `"ASSIGNED"` and overwrites `assigned_driver_id` with
the event's driver id: `assign_driver` has no status guard. -/
theorem driver_assigned_overwrites_any_status (store : List Trip) (e : BaseEvent)
    (tid did : PVal) (t : Trip)
    (hname : e.name = "driver.assigned")
    (h1 : payloadGet e.payload "trip_id" = some tid) (ht1 : tid.truthy = true)
    (h2 : payloadGet e.payload "driver_id" = some did) (ht2 : did.truthy = true)
    (hfind : store.find? (fun x => tripIdMatches x tid) = some t) :
    ∃ s1, on_driver_assigned store e = .ok s1 ∧
      s1.find? (fun x => tripIdMatches x tid) =
        some { t with status := "ASSIGNED", assigned_driver_id := some did } := by
  obtain ⟨l2, hl2, hl2find⟩ := assign_driver_find_spec did hfind
  refine ⟨l2, ?_, hl2find⟩
  simp [on_driver_assigned, hname, h1, h2, ht1, ht2, hl2]

/-- Witness for C9: a trip already `"COMPLETED"` (with a final price and a
previously assigned driver) is reverted to `"ASSIGNED"` and re-pointed at
the new driver. -/
theorem driver_assigned_overwrites_any_status_witness :
    ∃ s1, on_driver_assigned
        [{ id := "t1", rider_id := "r1", pickup := [], dropoff := [],
           status := "COMPLETED", assigned_driver_id := some (PVal.str "d1"),
           estimated_price_dkk := some 80, final_price_dkk := some 95 }]
        ⟨"driver.assigned", "ev2", "ts0", "driver_service",
         [("trip_id", PVal.str "t1"), ("driver_id", PVal.str "d2")]⟩ = .ok s1 ∧
      s1.find? (fun x => tripIdMatches x (PVal.str "t1")) =
        some { id := "t1", rider_id := "r1", pickup := [], dropoff := [],
               status := "ASSIGNED", assigned_driver_id := some (PVal.str "d2"),
               estimated_price_dkk := some 80, final_price_dkk := some 95 } :=
  driver_assigned_overwrites_any_status
    [{ id := "t1", rider_id := "r1", pickup := [], dropoff := [],
       status := "COMPLETED", assigned_driver_id := some (PVal.str "d1"),
       estimated_price_dkk := some 80, final_price_dkk := some 95 }]
    ⟨"driver.assigned", "ev2", "ts0", "driver_service",
     [("trip_id", PVal.str "t1"), ("driver_id", PVal.str "d2")]⟩
    (PVal.str "t1") (PVal.str "d2") _ rfl rfl rfl rfl rfl rfl

/-- C7 counterexample: a `pricing.quoted` event whose `trip_id` matches no
existing trip does not always return silently — when its present
`estimated_price_dkk` is the non-numeric string `"abc"`, `float(est)` is
evaluated before the store lookup and the handler raises `ValueError`. -/
theorem pricing_quoted_missing_trip_counterexample :
    on_pricing_quoted
      [{ id := "t1", rider_id := "r1", pickup := [], dropoff := [] }]
      ⟨"pricing.quoted", "e1", "ts0", "pricing_service",
       [("trip_id", PVal.str "missing"), ("estimated_price_dkk", PVal.str "abc")]⟩ =
    .error "ValueError" := rfl

/-- C7 (amended): delivering a `pricing.quoted` event whose `trip_id`
matches no existing trip raises no exception and leaves the trip store
exactly as it was, provided the `estimated_price_dkk` value converts to a
number — as in the spec's scenario, where it is the numeric 99.0. -/
theorem pricing_quoted_missing_trip_no_change (store : List Trip) (e : BaseEvent)
    (tid est : PVal) (q : Rat)
    (hname : e.name = "pricing.quoted")
    (h1 : payloadGet e.payload "trip_id" = some tid)
    (h2 : payloadGet e.payload "estimated_price_dkk" = some est)
    (hconv : pyFloat est = .ok q)
    (hmiss : ∀ t ∈ store, tripIdMatches t tid = false) :
    on_pricing_quoted store e = .ok store := by
  by_cases htr : tid.truthy
  · have hnull : est ≠ PVal.null := by
      intro hh
      rw [hh] at hconv
      exact absurd hconv (by simp [pyFloat])
    simp [on_pricing_quoted, hname, h1, h2, htr, hnull, hconv, set_estimate_none hmiss]
  · simp [on_pricing_quoted, hname, h1, h2, htr]

/-- Witness for C7: the spec's own scenario — payload
`{trip_id: "missing", estimated_price_dkk: 99.0}` against a store holding
only trip `t1` — returns the store unchanged. -/
theorem pricing_quoted_missing_trip_no_change_witness :
    on_pricing_quoted
      [{ id := "t1", rider_id := "r1", pickup := [], dropoff := [] }]
      ⟨"pricing.quoted", "e2", "ts0", "pricing_service",
       [("trip_id", PVal.str "missing"), ("estimated_price_dkk", PVal.num 99)]⟩ =
    .ok [{ id := "t1", rider_id := "r1", pickup := [], dropoff := [] }] :=
  pricing_quoted_missing_trip_no_change _ _ (PVal.str "missing") (PVal.num 99) 99
    rfl rfl rfl rfl (by decide)

/-- C8: each of the three registered reactor handlers, on an event whose
name differs from the one it was registered for or whose payload lacks a
required key, returns without error, leaves its store unchanged, and
publishes nothing. -/
theorem handlers_ignore_foreign_or_incomplete :
    (∀ genId genTs src store e,
        e.name ≠ "trip.requested" ∨ payloadGet e.payload "trip_id" = none →
        on_trip_requested genId genTs src store e = .ok (store, none))
    ∧ (∀ store e,
        e.name ≠ "driver.assigned" ∨ payloadGet e.payload "trip_id" = none ∨
          payloadGet e.payload "driver_id" = none →
        on_driver_assigned store e = .ok store)
    ∧ (∀ store e,
        e.name ≠ "pricing.quoted" ∨ payloadGet e.payload "trip_id" = none ∨
          payloadGet e.payload "estimated_price_dkk" = none →
        on_pricing_quoted store e = .ok store) := by
  refine ⟨?_, ?_, ?_⟩
  · intro genId genTs src store e h
    rcases h with h | h
    · simp [on_trip_requested, h]
    · by_cases hn : e.name = "trip.requested"
      · simp [on_trip_requested, hn, h]
      · simp [on_trip_requested, hn]
  · intro store e h
    by_cases hn : e.name = "driver.assigned"
    · rcases h with h | h | h
      · exact absurd hn h
      · simp [on_driver_assigned, hn, h]
      · cases h1 : payloadGet e.payload "trip_id" with
        | none => simp [on_driver_assigned, hn, h1]
        | some v => simp [on_driver_assigned, hn, h1, h]
    · simp [on_driver_assigned, hn]
  · intro store e h
    by_cases hn : e.name = "pricing.quoted"
    · rcases h with h | h | h
      · exact absurd hn h
      · simp [on_pricing_quoted, hn, h]
      · cases h1 : payloadGet e.payload "trip_id" with
        | none => simp [on_pricing_quoted, hn, h1]
        | some v => simp [on_pricing_quoted, hn, h1, h]
    · simp [on_pricing_quoted, hn]

/-- Witness for C8: the driver reactor on a wrongly named event, the trip
reactor on an event with no payload keys, and the pricing reactor on an
event lacking `estimated_price_dkk`, each return their store unchanged. -/
theorem handlers_ignore_foreign_or_incomplete_witness :
    on_trip_requested "g1" "ts9" "driver_service" [⟨"d1", "Ben", true⟩]
        ⟨"pricing.quoted", "i1", "ts9", "svc", [("trip_id", PVal.str "t1")]⟩ =
      .ok ([⟨"d1", "Ben", true⟩], none)
    ∧ on_driver_assigned
        [{ id := "t1", rider_id := "r1", pickup := [], dropoff := [] }]
        ⟨"driver.assigned", "i2", "ts9", "svc", []⟩ =
      .ok [{ id := "t1", rider_id := "r1", pickup := [], dropoff := [] }]
    ∧ on_pricing_quoted
        [{ id := "t1", rider_id := "r1", pickup := [], dropoff := [] }]
        ⟨"pricing.quoted", "i3", "ts9", "svc", [("trip_id", PVal.str "t1")]⟩ =
      .ok [{ id := "t1", rider_id := "r1", pickup := [], dropoff := [] }] :=
  ⟨handlers_ignore_foreign_or_incomplete.1 "g1" "ts9" "driver_service" _ _
     (Or.inl (by decide)),
   handlers_ignore_foreign_or_incomplete.2.1 _ _ (Or.inr (Or.inl rfl)),
   handlers_ignore_foreign_or_incomplete.2.2 _ _ (Or.inr (Or.inr rfl))⟩

/-- C5: on a bus whose `connect` has not run, `publish` fails with the
"not connected" `RuntimeError` for every event, and `subscribe` fails with
the same error for every event name, queue name and handler; the raised
error means nothing is sent and no queue is declared, and indeed the bus
state records no sent message and no queue. -/
theorem publish_subscribe_before_connect_fail (url : String) (e : BaseEvent)
    (eventName queueName : String) (handler : BaseEvent → Except String Unit) :
    busPublish (rabbitBusInit url) e = .error "RuntimeError: RabbitBus not connected"
    ∧ busSubscribe (rabbitBusInit url) eventName queueName handler =
        .error "RuntimeError: RabbitBus not connected"
    ∧ (rabbitBusInit url).sent = [] ∧ (rabbitBusInit url).queues = [] :=
  ⟨rfl, rfl, rfl, rfl⟩

/-- C6 (code evidence): against a permanently unreachable transport,
`busConnect` makes exactly one connection attempt — not 10 — and surfaces
that first failure: `RabbitBus.connect` has no retry loop, although the
repo's own tests (`test_event_bus.py`, `test_connect_retry_on_failure`)
assert `connect_robust.call_count == 10`. -/
theorem connect_makes_single_attempt (url : String)
    (transport : Nat → Except String Unit)
    (hfail : ∀ n, transport n = .error "Connection failed") :
    busConnect transport (rabbitBusInit url) = (1, .error "Connection failed")
    ∧ (1 : Nat) ≠ 10 := by
  constructor
  · simp [busConnect, hfail 0]
  · decide

/-- Witness for C6: the concrete always-failing transport. -/
theorem connect_makes_single_attempt_witness :
    busConnect (fun _ => .error "Connection failed") (rabbitBusInit "amqp://guest@mq/") =
      (1, .error "Connection failed") ∧ (1 : Nat) ≠ 10 :=
  connect_makes_single_attempt "amqp://guest@mq/"
    (fun _ => .error "Connection failed") (fun _ => rfl)

/-- C2 (code evidence): `pick_available` and `set_available` are two
separate storage operations with no lock or compare-and-swap between them,
so under the interleaving pick/pick/mark/mark of two concurrent
`trip.requested` handlings with a single available driver `d1`, both
handlings publish `driver.assigned` carrying `d1`: one driver is assigned
to both trips. -/
theorem double_assignment_race :
    (runSchedule "driver_service" [true, false, true, false]
        ⟨[⟨"d1", "Dana", true⟩], []⟩
        { tripId := PVal.str "t1", genId := "eA", genTs := "tsA" }
        { tripId := PVal.str "t2", genId := "eB", genTs := "tsB" }).1.published =
      [mkAssignedEvent "eA" "tsA" "driver_service" (PVal.str "t1") "d1",
       mkAssignedEvent "eB" "tsB" "driver_service" (PVal.str "t2") "d1"] := by
  decide

/-- C10: a `pricing.quoted` event whose `estimated_price_dkk` is present
but not convertible to a number makes `on_pricing_quoted` raise the
`ValueError` from `float(est)` — only `KeyError` is caught — rather than
silently skipping, even though a matching trip exists. -/
theorem pricing_quoted_nonnumeric_raises :
    on_pricing_quoted
      [{ id := "t7", rider_id := "r1", pickup := [], dropoff := [] }]
      ⟨"pricing.quoted", "e9", "ts0", "pricing_service",
       [("trip_id", PVal.str "t7"), ("estimated_price_dkk", PVal.str "not-a-number")]⟩ =
    .error "ValueError" := rfl

end UberProject
